import Mathlib

/-!
Verification development for the real-time call orchestration core of the
ai-caller repository.  The definitions below are a shallow embedding of the
TypeScript sources:

* `DeepgramSTTClient` (speech-to-text adapter) — transcript message dispatch;
* `CallOrchestrator` — session registry, metering, barge-in, playback,
  turn processing and termination (`src/unnamed/part_001`).

JavaScript numbers that only ever hold non-negative integers (timestamps in
milliseconds, token counts, credit counters) are modelled as `Nat`; fractional
arithmetic such as `Math.ceil(ms / 1000 / 60)` is carried out exactly with
`ceilDiv` on the millisecond values.  JavaScript `Map`s are modelled as
association lists with `Map.set` / `Map.get` / `Map.delete` counterparts.
Asynchronous external collaborators (OpenAI, ElevenLabs, the wall clock) are
modelled as explicit parameters carrying the outcome of the external call.
-/

namespace AICaller

/-- Ceiling division on naturals: `ceilDiv a b = ⌈a / b⌉` for `b > 0`.
Used to model `Math.ceil` applied to exact rational quantities. -/
def ceilDiv (a b : Nat) : Nat := (a + b - 1) / b

/-- Role tag of one conversation turn (`"user" | "assistant" | "system"`). -/
inductive Role
  | system
  | user
  | assistant
deriving DecidableEq, Repr

/-- One entry of `CallSession.conversationHistory`. -/
structure Turn where
  role : Role
  content : String
deriving DecidableEq, Repr

/-- The boolean safety rules of `AgentConfig.rules`. -/
structure AgentRules where
  noLegal : Bool
  noMedical : Bool
  confirmBookings : Bool
  handoffOnConfusion : Bool
deriving DecidableEq, Repr

/-- `AgentConfig` from the call orchestrator module. -/
structure AgentConfig where
  id : String
  name : String
  language : String
  instructions : String
  greeting : String
  fallbackMessage : String
  voiceId : String
  latencyMode : String
  rules : AgentRules
deriving DecidableEq, Repr

/-- `CallState` from the SignalWire integration (the telephony-side record).
The TypeScript fields `to` / `from` are called `toNumber` / `fromNumber`
here because `from` is a Lean keyword. -/
structure CallState where
  callId : String
  status : String
  direction : String
  toNumber : String
  fromNumber : String
  startedAt : Nat
  endedAt : Option Nat
  durationSec : Nat
  recordingUrl : Option String
deriving DecidableEq, Repr

/-- `CallSession` — the per-call record owned by the orchestrator.
`startTime`, `silenceStart` and `lastUserSpeech` are epoch milliseconds. -/
structure CallSession where
  callId : String
  tenantId : String
  agentId : String
  campaignId : Option String
  agent : AgentConfig
  callState : CallState
  conversationHistory : List Turn
  creditsUsed : Nat
  startTime : Nat
  isSpeaking : Bool
  isListening : Bool
  silenceStart : Option Nat
  lastUserSpeech : Option Nat
  outcome : Option String
  transcriptSummary : List String
deriving DecidableEq, Repr

/-- The per-session speech-to-text adapter, reduced to the one bit of state
the orchestrator consults (`DeepgramSTTClient.connected()`).  `isConnected`
is true when the client was configured and its `connect()` resolved. -/
structure STTClient where
  isConnected : Bool
deriving DecidableEq, Repr

/-- `AudioBuffer` from the orchestrator module. -/
structure AudioBuffer where
  chunks : List (List Nat)
  totalDuration : Nat
deriving DecidableEq, Repr

/-! ### Association lists modelling JavaScript `Map`s

`alookup` is `Map.get`, `aset` is `Map.set` (replaces the entry in place when
the key is present, otherwise appends), `aerase` is `Map.delete`. -/

def alookup {α : Type} : List (String × α) → String → Option α
  | [], _ => none
  | (k, v) :: l, c => if k = c then some v else alookup l c

def aset {α : Type} : List (String × α) → String → α → List (String × α)
  | [], c, v => [(c, v)]
  | (k, w) :: l, c, v => if k = c then (c, v) :: l else (k, w) :: aset l c v

def aerase {α : Type} : List (String × α) → String → List (String × α)
  | [], _ => []
  | (k, w) :: l, c => if k = c then l else (k, w) :: aerase l c

/-! ### Playback loop of `speakResponse` with interleaved barge-in

`speakResponse` iterates the lazily produced TTS audio chunks:

    for await (const chunk of elevenlabs.textToSpeechStream(...)) {
      if (!session.isSpeaking) { break; }
      this.emit("audioOutput", { callId, audio: chunk });
    }

`handleBargeIn` may run between any two loop iterations and performs
`session.isSpeaking = false`.  The interleaving of loop iterations and
barge-in signals is modelled as a list of `PlayEvent`s acting on a
`PlaybackState`; `speakResponse` enters the loop with `isSpeaking = true`. -/

/-- One scheduler step during playback: either the loop processes the next
TTS chunk, or `handleBargeIn` fires. -/
inductive PlayEvent
  | frame
  | bargeIn
deriving DecidableEq, Repr

/-- State of the playback loop: the session's `isSpeaking` flag, the number
of chunks already forwarded via `audioOutput`, and whether the loop has
executed its `break`. -/
structure PlaybackState where
  isSpeaking : Bool
  forwarded : Nat
  stopped : Bool
deriving DecidableEq, Repr

/-- One step of the playback interleaving.  A `frame` event is one loop
iteration: after the `break` nothing happens; otherwise the loop first checks
`session.isSpeaking` and breaks when it is cleared, and only otherwise
forwards the chunk.  A `bargeIn` event is `handleBargeIn`, which clears
`isSpeaking`. -/
def playbackStep (s : PlaybackState) (e : PlayEvent) : PlaybackState :=
  match e with
  | .bargeIn => { s with isSpeaking := false }
  | .frame =>
    if s.stopped then s
    else if s.isSpeaking then { s with forwarded := s.forwarded + 1 }
    else { s with stopped := true }

/-- The playback loop of `speakResponse` run against a given interleaving,
starting from the state set up by `session.isSpeaking = true`. -/
def playbackRun (events : List PlayEvent) : PlaybackState :=
  events.foldl playbackStep ⟨true, 0, false⟩

/-- Number of loop iterations (frame events) in an interleaving. -/
def frameCount (events : List PlayEvent) : Nat :=
  (events.filter (· = PlayEvent.frame)).length

/-! ### Metering (`updateCallCredits` and the token charge of
`generateResponse`)

The two writers of `session.creditsUsed`:

* `updateCallCredits` (runs on every processed inbound audio frame):
  `durationMin = Math.ceil(durationSec / 60)`, `newCredits = durationMin * 5`,
  and the counter is raised to `newCredits` when that is larger;
* `generateResponse`: `creditsUsed += Math.ceil(tokensUsed / 100)`.

`MeterEvent` records one occurrence of either writer with its external
input (elapsed wall-clock milliseconds, resp. total tokens reported). -/

/-- `CREDITS_PER_MINUTE` of the orchestrator. -/
def CREDITS_PER_MINUTE : Nat := 5

/-- `MAX_CALL_DURATION_SEC` of the orchestrator. -/
def MAX_CALL_DURATION_SEC : Nat := 600

/-- `SILENCE_THRESHOLD_MS` of the orchestrator. -/
def SILENCE_THRESHOLD_MS : Nat := 1500

/-- The counter update of `updateCallCredits`: raise `creditsUsed` to
`ceil(elapsed minutes) * CREDITS_PER_MINUTE` when that exceeds it
(`elapsedMs` is `Date.now() - session.startTime`). -/
def updateCallCreditsCounter (creditsUsed elapsedMs : Nat) : Nat :=
  let newCredits := ceilDiv elapsedMs 60000 * CREDITS_PER_MINUTE
  if creditsUsed < newCredits then newCredits else creditsUsed

/-- The token charge of `generateResponse`:
`Math.ceil(tokensUsed / 100)`. -/
def turnGenCredits (tokensUsed : Nat) : Nat := ceilDiv tokensUsed 100

/-- One metering-relevant event: an inbound audio frame processed at the
given elapsed time since session start, or a turn generation that reported
the given token usage. -/
inductive MeterEvent
  | audioFrame (elapsedMs : Nat)
  | turnGen (tokensUsed : Nat)
deriving DecidableEq, Repr

/-- Effect of one event on the `creditsUsed` counter, as the code computes
it. -/
def meterStep (creditsUsed : Nat) (e : MeterEvent) : Nat :=
  match e with
  | .audioFrame elapsedMs => updateCallCreditsCounter creditsUsed elapsedMs
  | .turnGen tokensUsed => creditsUsed + turnGenCredits tokensUsed

/-- The `creditsUsed` counter after a whole event log (sessions start at
`creditsUsed = 0`). -/
def meterRun (events : List MeterEvent) : Nat :=
  events.foldl meterStep 0

/-- Modelled from the spec: the independently computed total
`sum(ceil(minute_i) * rate) + sum(ceil(resourceUnits_j / unitSize))` of the
metering-monotonicity property, summing every event of the log. -/
def specMeterTotal (events : List MeterEvent) : Nat :=
  (events.map fun e =>
    match e with
    | .audioFrame elapsedMs => ceilDiv elapsedMs 60000 * CREDITS_PER_MINUTE
    | .turnGen tokensUsed => turnGenCredits tokensUsed).sum

/-- The metering delta the code emits for one event at a given counter
value: `updateCallCredits` emits `newCredits - creditsUsed` when positive
(and nothing otherwise), a turn generation charges
`turnGenCredits tokensUsed`. -/
def meterDelta (creditsUsed : Nat) (e : MeterEvent) : Nat :=
  match e with
  | .audioFrame elapsedMs =>
    let newCredits := ceilDiv elapsedMs 60000 * CREDITS_PER_MINUTE
    if creditsUsed < newCredits then newCredits - creditsUsed else 0
  | .turnGen tokensUsed => turnGenCredits tokensUsed

/-- The sequence of deltas emitted while folding the event log from a given
counter value. -/
def emittedDeltas : List MeterEvent → Nat → List Nat
  | [], _ => []
  | e :: es, c => meterDelta c e :: emittedDeltas es (meterStep c e)

/-! ### Transcript events (`DeepgramSTTClient`) -/

/-- `TranscriptResult` as produced by `parseTranscriptResult` (confidence and
word timings are irrelevant to every claim and omitted). -/
structure TranscriptResult where
  text : String
  isFinal : Bool
  speechFinal : Bool
deriving DecidableEq, Repr

/-- The events `DeepgramSTTClient` can emit for one `Results` message. -/
inductive SttEvent
  | transcript (r : TranscriptResult)
  | finalTranscript (r : TranscriptResult)
  | interimTranscript (r : TranscriptResult)
  | speechEnd (r : TranscriptResult)
deriving DecidableEq, Repr

/-- Event dispatch of `DeepgramSTTClient.handleMessage` for a `Results`
message, in emission order: nothing when the transcript text is empty;
otherwise `transcript`, then `finalTranscript` or `interimTranscript`
according to `is_final`, then `speechEnd` when `speech_final` is set. -/
def handleMessageEvents (r : TranscriptResult) : List SttEvent :=
  if r.text = "" then []
  else
    [SttEvent.transcript r]
      ++ (if r.isFinal then [SttEvent.finalTranscript r]
          else [SttEvent.interimTranscript r])
      ++ (if r.speechFinal then [SttEvent.speechEnd r] else [])

/-- `text.trim()` of JavaScript: leading and trailing whitespace removed.
Implemented on the character list (Lean's own `String.trim` is equivalent
but does not reduce inside the kernel, which concrete evaluations need). -/
def jsTrim (s : String) : String :=
  String.mk
    (((s.data.dropWhile Char.isWhitespace).reverse.dropWhile Char.isWhitespace).reverse)

/-! ### Orchestrator state and telemetry -/

/-- Telemetry events emitted by the orchestrator (the subset with a bearing
on the claims; payloads follow the code). -/
inductive Emit
  | sessionInitialized (callId : String)
  | userSpeaking (callId text : String) (isFinal : Bool)
  | userTranscript (callId text : String)
  | aiSpeaking (callId text : String)
  | aiFinishedSpeaking (callId : String)
  | ttsNotConfigured (callId text : String)
  | audioOutput (callId : String) (audio : List Nat)
  | bargeInEvent (callId : String)
  | aiError (callId : String)
  | creditsDeducted (callId tenantId : String) (credits totalCredits : Nat)
  | callEnded (callId tenantId : String) (durationSec creditsUsed : Nat) (reason : String)
deriving DecidableEq, Repr

/-- The stats object returned by `endCall`. -/
structure CallStats where
  durationSec : Nat
  creditsUsed : Nat
  transcriptSummary : String
deriving DecidableEq, Repr

/-- The mutable state of the `CallOrchestrator` singleton: its four
per-call maps. -/
structure OrchState where
  activeSessions : List (String × CallSession)
  sttClients : List (String × STTClient)
  audioBuffers : List (String × AudioBuffer)
  ttsQueue : List (String × List (List Nat))
deriving DecidableEq, Repr

/-- The orchestrator before any session is created. -/
def emptyOrch : OrchState := ⟨[], [], [], []⟩

/-- `buildSystemPrompt`.  The template string is reproduced verbatim
(`\x27` is the apostrophe). -/
def buildSystemPrompt (agent : AgentConfig) : String :=
  let rules : List String :=
    (if agent.rules.noLegal then ["Never provide legal advice"] else [])
      ++ (if agent.rules.noMedical then ["Never provide medical advice"] else [])
      ++ (if agent.rules.confirmBookings then
            ["Always confirm booking details before finalizing"] else [])
      ++ (if agent.rules.handoffOnConfusion then
            ["If confused for more than 2 exchanges, offer to connect to a human"] else [])
  "You are " ++ agent.name ++ ", an AI voice assistant on a phone call.\n\nINSTRUCTIONS:\n"
    ++ agent.instructions ++ "\n\nRULES:\n"
    ++ String.intercalate "\n" (rules.map (fun r => "- " ++ r))
    ++ "\n\nIMPORTANT VOICE GUIDELINES:\n1. Keep responses SHORT (1-2 sentences max for phone)\n2. Speak naturally with conversational fillers like \"Sure\", \"Let me check\", \"Got it\"\n3. Use simple, clear language\n4. Ask one question at a time\n5. Confirm understanding before moving on\n6. If user is silent, politely check if they\x27re still there\n\nWhen unsure, use this fallback: \""
    ++ agent.fallbackMessage
    ++ "\"\n\nStart the conversation with a warm greeting."

/-- `initializeSession`.  External inputs: `telephonyState` is
`signalwire.getCallState(callId)`, `now` is `Date.now()`, and
`sttConfigured` records whether the Deepgram client is configured and its
`connect()` resolved (when false the session keeps a disconnected client).
The function registers the new session unconditionally — there is no
duplicate-`callId` check and no turn-generator configuration check. -/
def initializeSession (st : OrchState) (callId tenantId agentId : String)
    (agent : AgentConfig) (campaignId : Option String)
    (telephonyState : Option CallState) (now : Nat) (sttConfigured : Bool) :
    OrchState × CallSession :=
  let session : CallSession :=
    { callId := callId
      tenantId := tenantId
      agentId := agentId
      campaignId := campaignId
      agent := agent
      callState := telephonyState.getD
        { callId := callId, status := "initiated", direction := "outbound"
          toNumber := "", fromNumber := "", startedAt := now, endedAt := none
          durationSec := 0, recordingUrl := none }
      conversationHistory := [⟨Role.system, buildSystemPrompt agent⟩]
      creditsUsed := 0
      startTime := now
      isSpeaking := false
      isListening := false
      silenceStart := none
      lastUserSpeech := none
      outcome := none
      transcriptSummary := [] }
  ({ st with
      activeSessions := aset st.activeSessions callId session
      audioBuffers := aset st.audioBuffers callId ⟨[], 0⟩
      ttsQueue := aset st.ttsQueue callId []
      sttClients := aset st.sttClients callId ⟨sttConfigured⟩ },
   session)

/-- `detectVoiceActivity`: mean absolute deviation from 128 compared with
the threshold 10; stated without division as `sum > 10 * length` (for an
empty buffer the JavaScript average is NaN and the comparison is false,
matching `0 < 0` here). -/
def detectVoiceActivity (audioData : List Nat) : Bool :=
  let sum := (audioData.map fun b => if 128 ≤ b then b - 128 else 128 - b).sum
  decide (10 * audioData.length < sum)

/-- `handleBargeIn`: clear the session's `isSpeaking` flag, drop the queued
TTS audio, emit `bargeIn`. -/
def handleBargeIn (st : OrchState) (callId : String) : OrchState × List Emit :=
  match alookup st.activeSessions callId with
  | none => (st, [])
  | some session =>
    ({ st with
        activeSessions := aset st.activeSessions callId { session with isSpeaking := false }
        ttsQueue := aset st.ttsQueue callId [] },
     [Emit.bargeInEvent callId])

/-- The bounded context window of `generateResponse`:
`session.conversationHistory.slice(-10)` (the last ten entries, or the whole
history when it is shorter). -/
def recentHistory (session : CallSession) : List Turn :=
  session.conversationHistory.drop (session.conversationHistory.length - 10)

/-- Outcome of the external OpenAI call made by `generateResponse`:
the API key is missing (`getOpenAI` throws), the completion call throws,
or it returns a message content (possibly absent) and a total token count
(`completion.usage?.total_tokens || 0`). -/
inductive GenOutcome
  | keyMissing
  | apiError
  | ok (content : Option String) (tokensUsed : Nat)
deriving DecidableEq, Repr

/-- Result of `generateResponse`: the updated session, the returned text,
the `messages` array sent to the completion request, and telemetry. -/
structure GenResult where
  session : CallSession
  response : String
  requestMessages : List Turn
  emits : List Emit
deriving DecidableEq, Repr

/-- `generateResponse`.  The happy path charges
`Math.ceil(tokensUsed / 100)` credits and returns
`content || fallbackMessage` (JavaScript falsiness: an absent or empty
content falls back); both error paths are caught, emit `aiError` and return
the fallback utterance without charging. -/
def generateResponse (session : CallSession) (gen : GenOutcome) : GenResult :=
  let messages := recentHistory session
  match gen with
  | .keyMissing =>
    { session := session, response := session.agent.fallbackMessage
      requestMessages := messages, emits := [Emit.aiError session.callId] }
  | .apiError =>
    { session := session, response := session.agent.fallbackMessage
      requestMessages := messages, emits := [Emit.aiError session.callId] }
  | .ok content tokensUsed =>
    let session :=
      { session with creditsUsed := session.creditsUsed + turnGenCredits tokensUsed }
    let response :=
      match content with
      | none => session.agent.fallbackMessage
      | some c => if c = "" then session.agent.fallbackMessage else c
    { session := session, response := response
      requestMessages := messages, emits := [] }

/-- `speakResponse`, sequential semantics (no interleaved barge-in; the
interleaved playback loop is `playbackRun` above).  External inputs:
`ttsConfigured` is `elevenlabs.isConfigured()`, `frames` the chunks the TTS
stream yields.  In all paths the `finally` block clears `isSpeaking` and
emits `aiFinishedSpeaking`. -/
def speakResponse (st : OrchState) (callId text : String)
    (ttsConfigured : Bool) (frames : List (List Nat)) : OrchState × List Emit :=
  match alookup st.activeSessions callId with
  | none => (st, [])
  | some session =>
    let session := { session with isSpeaking := true }
    let finished := { session with isSpeaking := false }
    let st' := { st with activeSessions := aset st.activeSessions callId finished }
    if ttsConfigured = false then
      (st', [Emit.aiSpeaking callId text, Emit.ttsNotConfigured callId text,
             Emit.aiFinishedSpeaking callId])
    else
      (st', [Emit.aiSpeaking callId text]
              ++ frames.map (fun chunk => Emit.audioOutput callId chunk)
              ++ [Emit.aiFinishedSpeaking callId])

/-- `processUserInput`: append the user turn, run `generateResponse`; when
the response is falsy (the empty string) stop — the user turn and any
credit charge persist on the session; otherwise append the assistant turn
and the summary line and speak the response. -/
def processUserInput (st : OrchState) (callId userText : String)
    (gen : GenOutcome) (ttsConfigured : Bool) (frames : List (List Nat)) :
    OrchState × List Emit :=
  match alookup st.activeSessions callId with
  | none => (st, [])
  | some session =>
    let session :=
      { session with
          conversationHistory := session.conversationHistory ++ [⟨Role.user, userText⟩] }
    let g := generateResponse session gen
    let session := g.session
    if g.response = "" then
      ({ st with activeSessions := aset st.activeSessions callId session }, g.emits)
    else
      let session :=
        { session with
            conversationHistory := session.conversationHistory ++ [⟨Role.assistant, g.response⟩]
            transcriptSummary := session.transcriptSummary ++ ["AI: " ++ g.response] }
      let st1 := { st with activeSessions := aset st.activeSessions callId session }
      let spoken := speakResponse st1 callId g.response ttsConfigured frames
      (spoken.1, g.emits ++ spoken.2)

/-- `sendGreeting`: append the configured greeting as an assistant turn and
a summary line, then speak it. -/
def sendGreeting (st : OrchState) (callId : String)
    (ttsConfigured : Bool) (frames : List (List Nat)) : OrchState × List Emit :=
  match alookup st.activeSessions callId with
  | none => (st, [])
  | some session =>
    let greeting := session.agent.greeting
    let session :=
      { session with
          conversationHistory := session.conversationHistory ++ [⟨Role.assistant, greeting⟩]
          transcriptSummary := session.transcriptSummary ++ ["AI: " ++ greeting] }
    let st1 := { st with activeSessions := aset st.activeSessions callId session }
    let spoken := speakResponse st1 callId greeting ttsConfigured frames
    (spoken.1, spoken.2)

/-- Result of `endCall`: the stats object, the orchestrator state, the
number of `stt.disconnect()` calls this invocation performed, and
telemetry. -/
structure EndCallResult where
  stats : CallStats
  state : OrchState
  sttDisconnects : Nat
  emits : List Emit
deriving DecidableEq, Repr

/-- `endCall`.  An unknown `callId` returns the empty stats object and does
nothing.  Otherwise the STT client is disconnected and removed, the stats
are computed (`durationSec = Math.floor((now - startTime) / 1000)`, summary
lines joined with newlines), the telephony call is ended (failure
tolerated), the session is removed from every map and `callEnded` is
emitted. -/
def endCall (st : OrchState) (callId : String) (reason : String) (now : Nat) :
    EndCallResult :=
  match alookup st.activeSessions callId with
  | none => ⟨⟨0, 0, ""⟩, st, 0, []⟩
  | some session =>
    let sttDisconnects :=
      match alookup st.sttClients callId with
      | some _ => 1
      | none => 0
    let sttClients :=
      match alookup st.sttClients callId with
      | some _ => aerase st.sttClients callId
      | none => st.sttClients
    let durationSec := (now - session.startTime) / 1000
    let transcriptSummary := String.intercalate "\n" session.transcriptSummary
    { stats := ⟨durationSec, session.creditsUsed, transcriptSummary⟩
      state :=
        { activeSessions := aerase st.activeSessions callId
          sttClients := sttClients
          audioBuffers := aerase st.audioBuffers callId
          ttsQueue := aerase st.ttsQueue callId }
      sttDisconnects := sttDisconnects
      emits := [Emit.callEnded callId session.tenantId durationSec
                  session.creditsUsed reason] }

/-- `updateCallCredits`: raise the counter to
`ceil(elapsed minutes) * CREDITS_PER_MINUTE` when that exceeds it, emitting
the positive delta; then, when the elapsed time has reached
`MAX_CALL_DURATION_SEC` (600 s, i.e. 600000 ms), end the call with reason
`max_duration`. -/
def updateCallCredits (st : OrchState) (session : CallSession) (now : Nat) :
    OrchState × List Emit :=
  let elapsedMs := now - session.startTime
  let newCredits := ceilDiv elapsedMs 60000 * CREDITS_PER_MINUTE
  let charged :=
    if session.creditsUsed < newCredits then
      ({ session with creditsUsed := newCredits },
       [Emit.creditsDeducted session.callId session.tenantId
          (newCredits - session.creditsUsed) newCredits])
    else (session, ([] : List Emit))
  let st1 := { st with activeSessions := aset st.activeSessions session.callId charged.1 }
  if 600000 ≤ elapsedMs then
    let ended := endCall st1 session.callId "max_duration" now
    (ended.state, charged.2 ++ ended.emits)
  else
    (st1, charged.2)

/-- `handleAudioInput`: no-op when the session is unknown or its STT client
is absent or not connected.  Otherwise: barge-in when the agent is speaking
and the frame has voice activity; forward the audio to the STT client;
silence-timeout bookkeeping; then metering and the max-duration check via
`updateCallCredits`. -/
def handleAudioInput (st : OrchState) (callId : String) (audioData : List Nat)
    (now : Nat) : OrchState × List Emit :=
  match alookup st.activeSessions callId with
  | none => (st, [])
  | some session =>
    match alookup st.sttClients callId with
    | none => (st, [])
    | some stt =>
      if stt.isConnected = false then (st, [])
      else
        let barged := session.isSpeaking && detectVoiceActivity audioData
        let session1 := if barged then { session with isSpeaking := false } else session
        let st1 :=
          if barged then
            { st with
                activeSessions := aset st.activeSessions callId session1
                ttsQueue := aset st.ttsQueue callId [] }
          else st
        let emits1 := if barged then [Emit.bargeInEvent callId] else ([] : List Emit)
        let session2 :=
          match session1.silenceStart with
          | some t =>
            if SILENCE_THRESHOLD_MS < now - t && !session1.isSpeaking then
              { session1 with silenceStart := none }
            else session1
          | none => session1
        let credited := updateCallCredits st1 session2 now
        (credited.1, emits1 ++ credited.2)

/-- Result of delivering one STT event (or one whole transcript message) to
the orchestrator: the new state, the telemetry, and whether turn
processing (`processUserInput`) was invoked. -/
structure StepResult where
  state : OrchState
  emits : List Emit
  turnInvoked : Bool
deriving DecidableEq, Repr

/-- The handlers installed by `setupSTTHandlers`, one `SttEvent` at a
time.  `transcript`: record user speech and emit `userSpeaking` (the
handler returns early on empty text).  `finalTranscript`: discard
whitespace-only text, otherwise push the summary line, emit
`userTranscript` and invoke `processUserInput`.  `interimTranscript` has no
subscriber.  `speechEnd`: clear `isListening` and start the silence
clock. -/
def onSttEvent (st : OrchState) (callId : String) (ev : SttEvent) (now : Nat)
    (gen : GenOutcome) (ttsConfigured : Bool) (frames : List (List Nat)) :
    StepResult :=
  match ev with
  | .transcript r =>
    if r.text = "" then ⟨st, [], false⟩
    else
      match alookup st.activeSessions callId with
      | none => ⟨st, [], false⟩
      | some session =>
        ⟨{ st with
            activeSessions := aset st.activeSessions callId
              { session with
                  lastUserSpeech := some now, silenceStart := none, isListening := true } },
         [Emit.userSpeaking callId r.text r.isFinal], false⟩
  | .finalTranscript r =>
    if jsTrim r.text = "" then ⟨st, [], false⟩
    else
      match alookup st.activeSessions callId with
      | none => ⟨st, [], false⟩
      | some session =>
        let st1 :=
          { st with
              activeSessions := aset st.activeSessions callId
                { session with
                    transcriptSummary := session.transcriptSummary ++ ["User: " ++ r.text] } }
        let processed := processUserInput st1 callId r.text gen ttsConfigured frames
        ⟨processed.1, Emit.userTranscript callId r.text :: processed.2, true⟩
  | .interimTranscript _ => ⟨st, [], false⟩
  | .speechEnd _ =>
    match alookup st.activeSessions callId with
    | none => ⟨st, [], false⟩
    | some session =>
      ⟨{ st with
          activeSessions := aset st.activeSessions callId
            { session with isListening := false, silenceStart := some now } },
       [], false⟩

/-- Delivery of one whole `Results` message: the events of
`handleMessageEvents` acting in order through the orchestrator's
handlers. -/
def processTranscriptResult (st : OrchState) (callId : String)
    (r : TranscriptResult) (now : Nat) (gen : GenOutcome)
    (ttsConfigured : Bool) (frames : List (List Nat)) : StepResult :=
  (handleMessageEvents r).foldl
    (fun acc ev =>
      let step := onSttEvent acc.state callId ev now gen ttsConfigured frames
      ⟨step.state, acc.emits ++ step.emits, acc.turnInvoked || step.turnInvoked⟩)
    ⟨st, [], false⟩

/-- Modelled from the spec: the trigger condition the specification states
for turn processing — a transcript event carrying the speech-final
(end-of-utterance) flag and non-empty text. -/
def specTurnTrigger (r : TranscriptResult) : Bool :=
  r.speechFinal && !(jsTrim r.text = "")

/-! ### The orchestrator as a step machine -/

/-- One externally triggered orchestrator operation together with the
outcomes of the external collaborators it consults. -/
inductive OrchEvent
  | init (callId tenantId agentId : String) (agent : AgentConfig)
      (campaignId : Option String) (telephonyState : Option CallState)
      (now : Nat) (sttConfigured : Bool)
  | audioInput (callId : String) (audioData : List Nat) (now : Nat)
  | sttResults (callId : String) (r : TranscriptResult) (now : Nat)
      (gen : GenOutcome) (ttsConfigured : Bool) (frames : List (List Nat))
  | greeting (callId : String) (ttsConfigured : Bool) (frames : List (List Nat))
  | endRequest (callId reason : String) (now : Nat)

/-- Dispatch of one operation. -/
def orchStep (st : OrchState) (ev : OrchEvent) : OrchState × List Emit :=
  match ev with
  | .init callId tenantId agentId agent campaignId tel now sttCfg =>
    let r := initializeSession st callId tenantId agentId agent campaignId tel now sttCfg
    (r.1, [Emit.sessionInitialized callId])
  | .audioInput callId audioData now => handleAudioInput st callId audioData now
  | .sttResults callId r now gen ttsCfg frames =>
    let s := processTranscriptResult st callId r now gen ttsCfg frames
    (s.state, s.emits)
  | .greeting callId ttsCfg frames => sendGreeting st callId ttsCfg frames
  | .endRequest callId reason now =>
    let r := endCall st callId reason now
    (r.state, r.emits)

/-- Orchestrator states reachable from the empty registry by any sequence
of operations. -/
inductive Reachable : OrchState → Prop
  | empty : Reachable emptyOrch
  | step (st : OrchState) (ev : OrchEvent) : Reachable st → Reachable (orchStep st ev).1

/-- Well-formedness of one session's dialogue history: its first entry is
the system-prompt turn built for the session's agent, and no later entry is
a `system` turn. -/
def sessionWF (s : CallSession) : Prop :=
  ∃ rest, s.conversationHistory
      = ⟨Role.system, buildSystemPrompt s.agent⟩ :: rest
    ∧ ∀ t ∈ rest, t.role ≠ Role.system

/-- Every session of a registry is well-formed. -/
def sessionsWF (l : List (String × CallSession)) : Prop :=
  ∀ p ∈ l, sessionWF p.2

/-- Well-formedness of the orchestrator state. -/
def stateWF (st : OrchState) : Prop :=
  sessionsWF st.activeSessions

/-! ### Concrete demonstration states (shared by witnesses and
counterexamples) -/

/-- A concrete agent configuration. -/
def demoAgent : AgentConfig :=
  { id := "agent-X", name := "Ava", language := "en-US"
    instructions := "Answer questions about the store."
    greeting := "Hello, thanks for calling."
    fallbackMessage := "Sorry, could you repeat that?"
    voiceId := "rachel", latencyMode := "FAST"
    rules := ⟨true, true, false, false⟩ }

/-- One session initialized on the empty orchestrator with a connected STT
client. -/
def demoInit : OrchState × CallSession :=
  initializeSession emptyOrch "call-1" "tenant-A" "agent-X" demoAgent none none 0 true

/-- The orchestrator state holding the one live session `"call-1"`. -/
def demoState : OrchState := demoInit.1

/-- Like `demoState` but with the STT client not connected (Deepgram
unconfigured — the documented degraded mode). -/
def demoStateD : OrchState :=
  (initializeSession emptyOrch "call-1" "tenant-A" "agent-X" demoAgent none none 0 false).1

/-- `demoAgent` under a different name, for the duplicate-`callId`
scenario. -/
def demoAgentB : AgentConfig := { demoAgent with name := "Bea" }

/-- An agent whose configured fallback utterance is the empty string. -/
def demoAgentE : AgentConfig := { demoAgent with fallbackMessage := "" }

/-- A live session for `demoAgentE`. -/
def demoStateE : OrchState :=
  (initializeSession emptyOrch "call-1" "tenant-A" "agent-X" demoAgentE none none 0 true).1

/-! ### Lemmas about the registry maps -/

theorem alookup_aset {α : Type} (l : List (String × α)) (k c : String) (v : α) :
    alookup (aset l k v) c = if k = c then some v else alookup l c := by
  induction l with
  | nil => by_cases h : k = c <;> simp [aset, alookup, h]
  | cons p l ih =>
    obtain ⟨k', w⟩ := p
    by_cases h1 : k' = k
    · by_cases h2 : k = c <;> simp [aset, alookup, h1, h2]
    · by_cases h2 : k' = c
      · subst h2
        have : ¬ k = k' := fun h => h1 h.symm
        simp [aset, alookup, h1, this]
      · simp [aset, alookup, h1, h2, ih]

theorem mem_aset {α : Type} {l : List (String × α)} {k : String} {v : α}
    {p : String × α} (h : p ∈ aset l k v) : p = (k, v) ∨ p ∈ l := by
  induction l with
  | nil => simpa [aset] using h
  | cons q l ih =>
    obtain ⟨k', w⟩ := q
    by_cases h1 : k' = k
    · simp [aset, h1] at h
      rcases h with h | h
      · exact Or.inl (by simp [h])
      · exact Or.inr (by simp [h])
    · simp [aset, h1] at h
      rcases h with h | h
      · exact Or.inr (by simp [h])
      · rcases ih h with h' | h'
        · exact Or.inl h'
        · exact Or.inr (by simp [h'])

theorem mem_aerase {α : Type} {l : List (String × α)} {k : String}
    {p : String × α} (h : p ∈ aerase l k) : p ∈ l := by
  induction l with
  | nil => simp [aerase] at h
  | cons q l ih =>
    obtain ⟨k', w⟩ := q
    by_cases h1 : k' = k
    · simp [aerase, h1] at h
      exact List.mem_cons_of_mem _ h
    · simp [aerase, h1] at h
      rcases h with h | h
      · simp [h]
      · exact List.mem_cons_of_mem _ (ih h)

theorem alookup_mem {α : Type} {l : List (String × α)} {c : String} {v : α}
    (h : alookup l c = some v) : (c, v) ∈ l := by
  induction l with
  | nil => simp [alookup] at h
  | cons q l ih =>
    obtain ⟨k', w⟩ := q
    by_cases h1 : k' = c
    · subst h1
      simp [alookup] at h
      simp [h]
    · simp [alookup, h1] at h
      exact List.mem_cons_of_mem _ (ih h)

/-! ### C1 — barge-in latency bound -/

theorem frameCount_nil : frameCount [] = 0 := rfl

theorem frameCount_cons_frame (es : List PlayEvent) :
    frameCount (PlayEvent.frame :: es) = frameCount es + 1 := by
  simp [frameCount, List.filter_cons]

theorem frameCount_cons_bargeIn (es : List PlayEvent) :
    frameCount (PlayEvent.bargeIn :: es) = frameCount es := by
  simp [frameCount, List.filter_cons]

theorem playbackStep_frame_forwarded (s : PlaybackState) :
    (playbackStep s PlayEvent.frame).forwarded ≤ s.forwarded + 1 := by
  simp only [playbackStep]
  split
  · omega
  · split <;> simp

theorem playbackStep_bargeIn_forwarded (s : PlaybackState) :
    (playbackStep s PlayEvent.bargeIn).forwarded = s.forwarded := rfl

/-- One loop iteration never forwards when the flag is already cleared, and
leaves the flag cleared. -/
theorem playbackStep_frame_of_not_speaking (s : PlaybackState)
    (hs : s.isSpeaking = false) :
    (playbackStep s PlayEvent.frame).isSpeaking = false
    ∧ (playbackStep s PlayEvent.frame).forwarded = s.forwarded := by
  simp only [playbackStep]
  split
  · exact ⟨hs, rfl⟩
  · simp [hs]

/-- The forwarded count is bounded by the number of loop iterations. -/
theorem playback_forwarded_le (events : List PlayEvent) :
    ∀ s : PlaybackState,
      (events.foldl playbackStep s).forwarded ≤ s.forwarded + frameCount events := by
  induction events with
  | nil => intro s; simp [frameCount_nil]
  | cons e es ih =>
    intro s
    rw [List.foldl_cons]
    cases e with
    | frame =>
      have h1 := ih (playbackStep s PlayEvent.frame)
      have h2 := playbackStep_frame_forwarded s
      rw [frameCount_cons_frame]
      omega
    | bargeIn =>
      have h1 := ih (playbackStep s PlayEvent.bargeIn)
      have h2 := playbackStep_bargeIn_forwarded s
      rw [frameCount_cons_bargeIn]
      omega

/-- Once the `isSpeaking` flag is cleared, no frame is ever forwarded again,
however the rest of the interleaving looks. -/
theorem playback_no_forward_of_not_speaking (events : List PlayEvent) :
    ∀ s : PlaybackState, s.isSpeaking = false →
      (events.foldl playbackStep s).forwarded = s.forwarded := by
  induction events with
  | nil => intro s _; rfl
  | cons e es ih =>
    intro s hs
    rw [List.foldl_cons]
    cases e with
    | frame =>
      obtain ⟨h1, h2⟩ := playbackStep_frame_of_not_speaking s hs
      rw [ih _ h1, h2]
    | bargeIn =>
      have h1 : (playbackStep s PlayEvent.bargeIn).isSpeaking = false := rfl
      rw [ih _ h1, playbackStep_bargeIn_forwarded]

/-- C1: barge-in latency bound.  For every interleaving in which
`handleBargeIn` clears `isSpeaking` before the playback loop of
`speakResponse` has forwarded its `k`-th frame (fewer than `k` loop
iterations precede the barge-in), the loop forwards no frame after the
barge-in at all, and forwards at most `k` frames in total. -/
theorem C1_barge_in_latency_bound (pre post : List PlayEvent) (k : Nat)
    (hk : frameCount pre < k) :
    (playbackRun (pre ++ PlayEvent.bargeIn :: post)).forwarded
        = (playbackRun pre).forwarded
    ∧ (playbackRun (pre ++ PlayEvent.bargeIn :: post)).forwarded ≤ k := by
  have hsplit : playbackRun (pre ++ PlayEvent.bargeIn :: post)
      = (PlayEvent.bargeIn :: post).foldl playbackStep (playbackRun pre) := by
    simp [playbackRun, List.foldl_append]
  have hcleared : (playbackStep (playbackRun pre) PlayEvent.bargeIn).isSpeaking = false := rfl
  have heq : (playbackRun (pre ++ PlayEvent.bargeIn :: post)).forwarded
      = (playbackRun pre).forwarded := by
    rw [hsplit, List.foldl_cons, playback_no_forward_of_not_speaking post _ hcleared,
      playbackStep_bargeIn_forwarded]
  refine ⟨heq, ?_⟩
  have hbound := playback_forwarded_le pre ⟨true, 0, false⟩
  have : (playbackRun pre).forwarded ≤ frameCount pre := by
    simpa [playbackRun] using hbound
  omega

/-- Witness for `C1_barge_in_latency_bound` at a concrete interleaving:
two frames forwarded, barge-in, two more frames offered. -/
theorem C1_barge_in_latency_bound_witness :
    frameCount [PlayEvent.frame, PlayEvent.frame] < 3
    ∧ (playbackRun ([PlayEvent.frame, PlayEvent.frame]
          ++ PlayEvent.bargeIn :: [PlayEvent.frame, PlayEvent.frame])).forwarded ≤ 3 :=
  ⟨by decide,
   (C1_barge_in_latency_bound [PlayEvent.frame, PlayEvent.frame]
      [PlayEvent.frame, PlayEvent.frame] 3 (by decide)).2⟩

/-! ### C2 — metering -/

/-- Every metering event leaves the counter no smaller. -/
theorem meterStep_mono (c : Nat) (e : MeterEvent) : c ≤ meterStep c e := by
  cases e with
  | audioFrame elapsedMs =>
    simp only [meterStep, updateCallCreditsCounter]
    split <;> omega
  | turnGen tokensUsed =>
    simp only [meterStep]
    omega

/-- One event advances the counter by exactly the delta it emits. -/
theorem meterStep_eq_add_delta (c : Nat) (e : MeterEvent) :
    meterStep c e = c + meterDelta c e := by
  cases e with
  | audioFrame elapsedMs =>
    simp only [meterStep, meterDelta, updateCallCreditsCounter]
    split <;> omega
  | turnGen tokensUsed => simp [meterStep, meterDelta]

theorem chain'_le_scanl (l : List MeterEvent) :
    ∀ c : Nat, List.Chain' (fun a b => a ≤ b) (List.scanl meterStep c l) := by
  induction l with
  | nil => intro c; simp
  | cons e es ih =>
    intro c
    cases es with
    | nil =>
      simp only [List.scanl]
      exact List.chain'_pair.mpr (meterStep_mono c e)
    | cons e' es' =>
      have h := ih (meterStep c e)
      simp only [List.scanl] at h ⊢
      exact List.Chain'.cons (meterStep_mono c e) h

theorem meterFold_eq_deltas (l : List MeterEvent) :
    ∀ c : Nat, l.foldl meterStep c = c + (emittedDeltas l c).sum := by
  induction l with
  | nil => intro c; simp [emittedDeltas]
  | cons e es ih =>
    intro c
    rw [List.foldl_cons]
    rw [ih (meterStep c e)]
    have h := meterStep_eq_add_delta c e
    simp only [emittedDeltas, List.sum_cons]
    omega

/-- C2 counterexample: the spec formula double-counts the time-based
updates.  Two inbound frames, at 30 s and 90 s elapsed: the code raises the
counter to `ceil(0.5 min)*5 = 5` and then to `ceil(1.5 min)*5 = 10`, while
`sum(ceil(minute_i)*rate)` over the two updates is `5 + 10 = 15`. -/
theorem C2_metering_counterexample :
    meterRun [MeterEvent.audioFrame 30000, MeterEvent.audioFrame 90000] = 10
    ∧ specMeterTotal [MeterEvent.audioFrame 30000, MeterEvent.audioFrame 90000] = 15
    ∧ ¬ meterRun [MeterEvent.audioFrame 30000, MeterEvent.audioFrame 90000]
        = specMeterTotal [MeterEvent.audioFrame 30000, MeterEvent.audioFrame 90000] := by
  decide

/-- C2 (amended): for every interleaving of inbound-audio-frame and
turn-generation events, the cumulative `creditsUsed` counter is
non-decreasing after every event, and at the end equals the sum of the
deltas emitted as metering events (the positive raise emitted by
`updateCallCredits`, and `ceil(tokensUsed/100)` per turn generation) —
rather than `sum(ceil(minute_i)*rate)` summed over all time-based
updates. -/
theorem C2_metering_amended (events : List MeterEvent) :
    List.Chain' (fun a b => a ≤ b) (List.scanl meterStep 0 events)
    ∧ meterRun events = (emittedDeltas events 0).sum := by
  refine ⟨chain'_le_scanl events 0, ?_⟩
  have h := meterFold_eq_deltas events 0
  simpa [meterRun] using h

/-! ### C7 — history window bound -/

/-- C7: history window bound.  Whatever the outcome of the external call,
`generateResponse` sends `conversationHistory.slice(-10)` as the request
context: at most 10 entries, a suffix of the stored history (the older
turns are exactly the dropped part, and the stored history itself is not
shortened by generation). -/
theorem C7_history_window_bound (s : CallSession) (gen : GenOutcome) :
    (generateResponse s gen).requestMessages.length ≤ 10
    ∧ (generateResponse s gen).requestMessages = recentHistory s
    ∧ s.conversationHistory
        = s.conversationHistory.take (s.conversationHistory.length - 10)
            ++ recentHistory s
    ∧ (generateResponse s gen).session.conversationHistory = s.conversationHistory := by
  have hreq : (generateResponse s gen).requestMessages = recentHistory s := by
    cases gen <;> rfl
  have hhist : (generateResponse s gen).session.conversationHistory
      = s.conversationHistory := by
    cases gen <;> rfl
  refine ⟨?_, hreq, ?_, hhist⟩
  · rw [hreq]
    simp only [recentHistory, List.length_drop]
    omega
  · simp [recentHistory, List.take_append_drop]

/-! ### C8 — duplicate-session handling -/

/-- C8 counterexample: `"call-1"` already has a live session (for agent
`Ava`), yet `initializeSession` with the same `callId` succeeds and leaves
the registry bound to the freshly created session (agent `Bea`): there is
no `AlreadyActive` failure and the existing session's registry entry is
replaced. -/
theorem C8_duplicate_session_counterexample :
    (alookup demoState.activeSessions "call-1").isSome = true
    ∧ ((alookup (initializeSession demoState "call-1" "tenant-A" "agent-X"
            demoAgentB none none 5 true).1.activeSessions "call-1").map
          (fun s => s.agent.name)) = some "Bea" := by
  decide

/-- C8 (amended): `initializeSession` performs no duplicate-`callId` check:
for every orchestrator state — also one in which `callId` already has a
live session — it succeeds, binds `callId` to the freshly created session
(replacing any existing entry), and that fresh session starts from the
system prompt with a zero credit counter. -/
theorem C8_duplicate_session_amended (st : OrchState)
    (callId tenantId agentId : String) (agent : AgentConfig)
    (campaignId : Option String) (tel : Option CallState) (now : Nat)
    (sttCfg : Bool) :
    alookup (initializeSession st callId tenantId agentId agent campaignId
        tel now sttCfg).1.activeSessions callId
      = some (initializeSession st callId tenantId agentId agent campaignId
          tel now sttCfg).2
    ∧ (initializeSession st callId tenantId agentId agent campaignId
        tel now sttCfg).2.conversationHistory
      = [⟨Role.system, buildSystemPrompt agent⟩]
    ∧ (initializeSession st callId tenantId agentId agent campaignId
        tel now sttCfg).2.creditsUsed = 0 := by
  refine ⟨?_, rfl, rfl⟩
  simp [initializeSession, alookup_aset]

/-! ### C9 — missing turn-generation provider -/

/-- C9 counterexample: `initializeSession` takes no account of the OpenAI
configuration (the definition has no such input, mirroring the source,
which never reads the key during initialization): the session for
`"call-1"` is created and registered all the same, and the missing provider
is discovered only at generation time, where `getOpenAI`'s throw is caught
and converted into the fallback utterance. -/
theorem C9_fail_fast_counterexample :
    (alookup demoState.activeSessions "call-1").isSome = true
    ∧ (generateResponse demoInit.2 GenOutcome.keyMissing).response
        = demoAgent.fallbackMessage := by
  decide

/-- C9 (amended): a missing turn-generation provider does not prevent
session creation: `initializeSession` always registers the session, and a
turn generated while the key is missing returns the agent's fallback
utterance with the session otherwise untouched (per-turn degraded mode,
not fail-fast). -/
theorem C9_fail_fast_amended (st : OrchState) (callId tenantId agentId : String)
    (agent : AgentConfig) (campaignId : Option String) (tel : Option CallState)
    (now : Nat) (sttCfg : Bool) (s : CallSession) :
    (alookup (initializeSession st callId tenantId agentId agent campaignId
        tel now sttCfg).1.activeSessions callId).isSome = true
    ∧ (generateResponse s GenOutcome.keyMissing).response = s.agent.fallbackMessage
    ∧ (generateResponse s GenOutcome.keyMissing).session = s := by
  refine ⟨?_, rfl, rfl⟩
  simp [initializeSession, alookup_aset]

/-! ### Key-uniqueness of the registry

A JavaScript `Map` never holds two entries for one key; on association
lists this is the invariant that the keys are `Nodup`.  It is preserved by
`aset` and `aerase` and makes `aerase` definitive: looking the key up
afterwards yields `none`. -/

theorem alookup_eq_none_of_not_mem_keys {α : Type} {l : List (String × α)}
    {c : String} (h : c ∉ l.map Prod.fst) : alookup l c = none := by
  induction l with
  | nil => rfl
  | cons p l ih =>
    obtain ⟨k, v⟩ := p
    simp only [List.map_cons, List.mem_cons] at h
    push_neg at h
    simp only [alookup]
    rw [if_neg (fun hk => h.1 hk.symm)]
    exact ih h.2

theorem alookup_aerase_self {α : Type} {l : List (String × α)} {k : String}
    (h : (l.map Prod.fst).Nodup) : alookup (aerase l k) k = none := by
  induction l with
  | nil => rfl
  | cons p l ih =>
    obtain ⟨k', v⟩ := p
    simp only [List.map_cons, List.nodup_cons] at h
    by_cases hk : k' = k
    · subst hk
      simp only [aerase, if_pos rfl]
      exact alookup_eq_none_of_not_mem_keys h.1
    · simp only [aerase, alookup, if_neg hk]
      exact ih h.2

theorem keys_aset {α : Type} (l : List (String × α)) (k : String) (v : α) :
    (aset l k v).map Prod.fst
      = if k ∈ l.map Prod.fst then l.map Prod.fst
        else l.map Prod.fst ++ [k] := by
  induction l with
  | nil => simp [aset]
  | cons p l ih =>
    obtain ⟨k', w⟩ := p
    by_cases hk : k' = k
    · subst hk
      simp [aset]
    · simp only [aset, if_neg hk, List.map_cons, ih]
      by_cases hm : k ∈ l.map Prod.fst
      · have hcond : k ∈ k' :: l.map Prod.fst := List.mem_cons_of_mem _ hm
        simp [hm, hcond]
      · have hcond : ¬ k ∈ k' :: l.map Prod.fst := by
          simp only [List.mem_cons]
          rintro (h | h)
          · exact hk h.symm
          · exact hm h
        simp [hm, hcond]

theorem nodup_keys_aset {α : Type} {l : List (String × α)} (k : String) (v : α)
    (h : (l.map Prod.fst).Nodup) : ((aset l k v).map Prod.fst).Nodup := by
  rw [keys_aset]
  by_cases hm : k ∈ l.map Prod.fst
  · simpa [hm] using h
  · simp only [hm, if_false]
    simp [List.nodup_append, h, hm]

/-! ### C3 — termination: two `endCall`s -/

/-- `endCall` on an unknown `callId`: empty stats, no releases, no state
change. -/
theorem endCall_none (st : OrchState) (callId reason : String) (now : Nat)
    (h : alookup st.activeSessions callId = none) :
    endCall st callId reason now = ⟨⟨0, 0, ""⟩, st, 0, []⟩ := by
  simp [endCall, h]

/-- C3 counterexample: ending the live session `"call-1"` 10 s into the
call returns `durationSec = 10`; the second `endCall` for the same
`callId` finds no session and returns the empty stats object — not the
same stats as the first call. -/
theorem C3_idempotent_termination_counterexample :
    (endCall demoState "call-1" "completed" 10000).stats.durationSec = 10
    ∧ (endCall (endCall demoState "call-1" "completed" 10000).state
        "call-1" "completed" 10000).stats = ⟨0, 0, ""⟩
    ∧ ¬ (endCall (endCall demoState "call-1" "completed" 10000).state
          "call-1" "completed" 10000).stats
        = (endCall demoState "call-1" "completed" 10000).stats := by
  decide

/-- C3 (amended): for every registry with unique keys holding a live
session and its STT client under `callId`, the second `endCall` never
raises (it is a total function), returns the *empty* stats object
`{0, 0, ""}` — the already-computed stats of the first call are not
replayed — changes nothing, and across both calls the STT adapter is
disconnected exactly once. -/
theorem C3_idempotent_termination_amended (st : OrchState)
    (callId reason1 reason2 : String) (now1 now2 : Nat)
    (s : CallSession) (stt : STTClient)
    (hs : alookup st.activeSessions callId = some s)
    (hstt : alookup st.sttClients callId = some stt)
    (hnd : (st.activeSessions.map Prod.fst).Nodup) :
    (endCall (endCall st callId reason1 now1).state callId reason2 now2).stats
        = ⟨0, 0, ""⟩
    ∧ (endCall st callId reason1 now1).sttDisconnects
        + (endCall (endCall st callId reason1 now1).state callId
            reason2 now2).sttDisconnects = 1
    ∧ (endCall (endCall st callId reason1 now1).state callId reason2 now2).state
        = (endCall st callId reason1 now1).state := by
  have hnone : alookup (endCall st callId reason1 now1).state.activeSessions callId
      = none := by
    simp only [endCall, hs, hstt]
    exact alookup_aerase_self hnd
  have hd1 : (endCall st callId reason1 now1).sttDisconnects = 1 := by
    simp [endCall, hs, hstt]
  refine ⟨?_, ?_, ?_⟩
  · rw [endCall_none _ _ _ _ hnone]
  · rw [endCall_none _ _ _ _ hnone, hd1]
    rfl
  · rw [endCall_none _ _ _ _ hnone]

set_option maxRecDepth 8000 in
/-- Witness for `C3_idempotent_termination_amended` on the concrete live
session `"call-1"`. -/
theorem C3_idempotent_termination_amended_witness :
    (endCall (endCall demoState "call-1" "completed" 10000).state
        "call-1" "hangup" 20000).stats = ⟨0, 0, ""⟩
    ∧ (endCall demoState "call-1" "completed" 10000).sttDisconnects
        + (endCall (endCall demoState "call-1" "completed" 10000).state
            "call-1" "hangup" 20000).sttDisconnects = 1
    ∧ (endCall (endCall demoState "call-1" "completed" 10000).state
        "call-1" "hangup" 20000).state
        = (endCall demoState "call-1" "completed" 10000).state :=
  C3_idempotent_termination_amended demoState "call-1" "completed" "hangup"
    10000 20000 demoInit.2 ⟨true⟩ (by decide) (by decide) (by decide)

/-! ### C4 — max-duration enforcement -/

/-- `handleAudioInput` is a no-op for an unknown session. -/
theorem handleAudioInput_no_session (st : OrchState) (callId : String)
    (audioData : List Nat) (now : Nat)
    (h : alookup st.activeSessions callId = none) :
    handleAudioInput st callId audioData now = (st, []) := by
  simp [handleAudioInput, h]

/-- Past the 600 s ceiling, `updateCallCredits` ends the call: the session
disappears from the registry and a `callEnded` event with reason
`max_duration` and the floored duration is emitted. -/
theorem updateCallCredits_max_duration (st : OrchState) (sess : CallSession)
    (now : Nat) (callId tenantId : String) (startT : Nat)
    (hnd : (st.activeSessions.map Prod.fst).Nodup)
    (hcid : sess.callId = callId) (hten : sess.tenantId = tenantId)
    (hstart : sess.startTime = startT)
    (helapsed : 600000 ≤ now - startT) :
    alookup (updateCallCredits st sess now).1.activeSessions callId = none
    ∧ ∀ em : List Emit, ∃ cu, Emit.callEnded callId tenantId ((now - startT) / 1000) cu
        "max_duration" ∈ em ++ (updateCallCredits st sess now).2 := by
  subst hcid hten hstart
  by_cases hc : sess.creditsUsed < ceilDiv (now - sess.startTime) 60000 * CREDITS_PER_MINUTE
  · have hlook : alookup (aset st.activeSessions sess.callId
        { sess with creditsUsed := ceilDiv (now - sess.startTime) 60000 * CREDITS_PER_MINUTE })
          sess.callId
        = some { sess with
            creditsUsed := ceilDiv (now - sess.startTime) 60000 * CREDITS_PER_MINUTE } := by
      rw [alookup_aset]
      simp
    constructor
    · simp only [updateCallCredits, if_pos hc, if_pos helapsed, endCall, hlook]
      exact alookup_aerase_self (nodup_keys_aset _ _ hnd)
    · intro em
      refine ⟨ceilDiv (now - sess.startTime) 60000 * CREDITS_PER_MINUTE, ?_⟩
      simp [updateCallCredits, if_pos hc, if_pos helapsed, endCall, hlook]
  · have hlook : alookup (aset st.activeSessions sess.callId sess) sess.callId
        = some sess := by
      rw [alookup_aset]
      simp
    constructor
    · simp only [updateCallCredits, if_neg hc, if_pos helapsed, endCall, hlook]
      exact alookup_aerase_self (nodup_keys_aset _ _ hnd)
    · intro em
      refine ⟨sess.creditsUsed, ?_⟩
      simp [updateCallCredits, if_neg hc, if_pos helapsed, endCall, hlook]

/-- C4 counterexample: `"call-1"` is live but its Deepgram client is not
connected (the documented degraded no-STT mode).  An inbound frame arriving
601 s after session start is dropped by `handleAudioInput` before the
metering/max-duration step: nothing is emitted and the session stays in the
registry — the ceiling is not enforced on every inbound audio frame. -/
theorem C4_max_duration_counterexample :
    (handleAudioInput demoStateD "call-1" [] 601000).2 = []
    ∧ (alookup (handleAudioInput demoStateD "call-1" [] 601000).1.activeSessions
        "call-1").isSome = true := by
  decide

/-- C4 (amended): for every registry with unique keys, a session whose
inbound audio frame is processed with a *connected* STT client at an
elapsed time of at least 600 s is terminated on that very frame: it
disappears from the live registry, a `callEnded` event with reason
`max_duration` and `durationSec ≥ 600` is emitted, and every later frame
for that `callId` is a no-op.  (Frames arriving while the STT client is
absent or disconnected are dropped before the metering/ceiling step, as
the counterexample shows.) -/
theorem C4_max_duration_amended (st : OrchState) (callId : String)
    (audioData : List Nat) (now : Nat) (s : CallSession) (stt : STTClient)
    (hs : alookup st.activeSessions callId = some s)
    (hstt : alookup st.sttClients callId = some stt)
    (hconn : stt.isConnected = true)
    (hid : s.callId = callId)
    (hnd : (st.activeSessions.map Prod.fst).Nodup)
    (helapsed : 600000 ≤ now - s.startTime) :
    alookup (handleAudioInput st callId audioData now).1.activeSessions callId = none
    ∧ (∃ cu, Emit.callEnded callId s.tenantId ((now - s.startTime) / 1000) cu
        "max_duration" ∈ (handleAudioInput st callId audioData now).2)
    ∧ 600 ≤ (now - s.startTime) / 1000
    ∧ ∀ audioData2 now2,
        handleAudioInput (handleAudioInput st callId audioData now).1 callId
            audioData2 now2
          = ((handleAudioInput st callId audioData now).1, []) := by
  have hdur : 600 ≤ (now - s.startTime) / 1000 := by
    rw [Nat.le_div_iff_mul_le (by norm_num : 0 < 1000)]
    omega
  have hmain : alookup (handleAudioInput st callId audioData now).1.activeSessions
        callId = none
      ∧ ∃ cu, Emit.callEnded callId s.tenantId ((now - s.startTime) / 1000) cu
          "max_duration" ∈ (handleAudioInput st callId audioData now).2 := by
    simp only [handleAudioInput, hs, hstt, hconn]
    by_cases hbarge : (s.isSpeaking && detectVoiceActivity audioData) = true
    all_goals simp [hbarge]
    all_goals rcases hss : s.silenceStart with _ | t
    all_goals simp only [hss]
    all_goals try split
    all_goals constructor
    all_goals first
      | (refine (updateCallCredits_max_duration _ _ now callId s.tenantId s.startTime
            ?_ ?_ ?_ ?_ helapsed).1 <;>
          first | exact hnd | exact nodup_keys_aset _ _ hnd | exact hid | rfl)
      | (refine (updateCallCredits_max_duration _ _ now callId s.tenantId s.startTime
            ?_ ?_ ?_ ?_ helapsed).2 [] <;>
          first | exact hnd | exact nodup_keys_aset _ _ hnd | exact hid | rfl)
  exact ⟨hmain.1, hmain.2, hdur,
    fun audioData2 now2 => handleAudioInput_no_session _ _ _ _ hmain.1⟩

set_option maxRecDepth 8000 in
/-- Witness for `C4_max_duration_amended`: the live, connected session
`"call-1"` fed a frame 601 s in. -/
theorem C4_max_duration_amended_witness :
    alookup (handleAudioInput demoState "call-1" [] 601000).1.activeSessions
        "call-1" = none
    ∧ (∃ cu, Emit.callEnded "call-1" "tenant-A" ((601000 - 0) / 1000) cu
        "max_duration" ∈ (handleAudioInput demoState "call-1" [] 601000).2)
    ∧ 600 ≤ (601000 - 0) / 1000
    ∧ ∀ audioData2 now2,
        handleAudioInput (handleAudioInput demoState "call-1" [] 601000).1 "call-1"
            audioData2 now2
          = ((handleAudioInput demoState "call-1" [] 601000).1, []) :=
  C4_max_duration_amended demoState "call-1" [] 601000 demoInit.2 ⟨true⟩
    (by decide) (by decide) (by decide) (by decide) (by decide) (by decide)

/-! ### C5 — what triggers turn processing -/

theorem jsTrim_empty : jsTrim "" = "" := by decide

/-- Delivered to an active session, a `Results` message invokes turn
processing exactly when it carries the `is_final` flag and non-whitespace
text — the `speech_final` flag does not enter the trigger condition. -/
theorem processTranscript_turnInvoked (st : OrchState) (callId : String)
    (r : TranscriptResult) (now : Nat) (gen : GenOutcome) (tts : Bool)
    (frames : List (List Nat)) (s : CallSession)
    (hs : alookup st.activeSessions callId = some s) :
    (processTranscriptResult st callId r now gen tts frames).turnInvoked
      = (r.isFinal && !(jsTrim r.text = "")) := by
  by_cases htext : r.text = ""
  · simp [processTranscriptResult, handleMessageEvents, htext, jsTrim_empty]
  · by_cases hfin : r.isFinal
    · by_cases htrim : jsTrim r.text = ""
      · by_cases hsf : r.speechFinal
        all_goals
          simp [processTranscriptResult, handleMessageEvents, onSttEvent,
            htext, hfin, htrim, hsf, hs, alookup_aset]
      · by_cases hsf : r.speechFinal
        all_goals
          simp [processTranscriptResult, handleMessageEvents, onSttEvent,
            htext, hfin, htrim, hsf, hs, alookup_aset]
    · by_cases hsf : r.speechFinal
      all_goals
        simp [processTranscriptResult, handleMessageEvents, onSttEvent,
          htext, hfin, hsf, hs, alookup_aset]

/-- A message that does not trigger turn processing leaves the session's
conversation history untouched (only listening/silence bookkeeping runs). -/
theorem processTranscript_no_turn_history (st : OrchState) (callId : String)
    (r : TranscriptResult) (now : Nat) (gen : GenOutcome) (tts : Bool)
    (frames : List (List Nat)) (s : CallSession)
    (hs : alookup st.activeSessions callId = some s)
    (hnt : (r.isFinal && !(jsTrim r.text = "")) = false) :
    ∀ s', alookup (processTranscriptResult st callId r now gen tts
        frames).state.activeSessions callId = some s' →
      s'.conversationHistory = s.conversationHistory := by
  intro s' hlook
  by_cases htext : r.text = ""
  · simp [processTranscriptResult, handleMessageEvents, htext, hs] at hlook
    subst hlook
    rfl
  · by_cases hfin : r.isFinal
    · by_cases htrim : jsTrim r.text = ""
      · by_cases hsf : r.speechFinal
        all_goals
          simp [processTranscriptResult, handleMessageEvents, onSttEvent,
            htext, hfin, htrim, hsf, hs, alookup_aset] at hlook
        all_goals subst hlook
        all_goals rfl
      · simp [hfin, htrim] at hnt
    · by_cases hsf : r.speechFinal
      all_goals
        simp [processTranscriptResult, handleMessageEvents, onSttEvent,
          htext, hfin, hsf, hs, alookup_aset] at hlook
      all_goals subst hlook
      all_goals rfl

/-- C5 counterexample: the trigger is the `is_final` flag, not the
speech-final flag.  A final-chunk message without `speech_final`
(`{text := "hello", is_final := true, speech_final := false}`) invokes turn
processing although the spec condition is false for it; an end-of-utterance
message without `is_final` (`{text := "hi there", is_final := false,
speech_final := true}`) satisfies the spec condition yet invokes nothing. -/
theorem C5_turn_trigger_counterexample :
    (processTranscriptResult demoState "call-1" ⟨"hello", true, false⟩ 100
        (GenOutcome.ok (some "We open at nine.") 120) true [[1]]).turnInvoked = true
    ∧ specTurnTrigger ⟨"hello", true, false⟩ = false
    ∧ (processTranscriptResult demoState "call-1" ⟨"hi there", false, true⟩ 100
        (GenOutcome.ok (some "We open at nine.") 120) true [[1]]).turnInvoked = false
    ∧ specTurnTrigger ⟨"hi there", false, true⟩ = true := by
  decide

/-- C5 (amended): for every transcript message delivered to an active
session, turn processing is invoked exactly when the message carries the
`is_final` flag and its text is non-empty after trimming (the speech-final
flag plays no part in the trigger); messages that do not trigger — in
particular whitespace-only final transcripts — are discarded without
appending anything to the conversation history. -/
theorem C5_turn_trigger_amended (st : OrchState) (callId : String)
    (r : TranscriptResult) (now : Nat) (gen : GenOutcome) (tts : Bool)
    (frames : List (List Nat)) (s : CallSession)
    (hs : alookup st.activeSessions callId = some s) :
    (processTranscriptResult st callId r now gen tts frames).turnInvoked
      = (r.isFinal && !(jsTrim r.text = ""))
    ∧ ((r.isFinal && !(jsTrim r.text = "")) = false →
        ∀ s', alookup (processTranscriptResult st callId r now gen tts
            frames).state.activeSessions callId = some s' →
          s'.conversationHistory = s.conversationHistory) :=
  ⟨processTranscript_turnInvoked st callId r now gen tts frames s hs,
   fun hnt => processTranscript_no_turn_history st callId r now gen tts frames s hs hnt⟩

set_option maxRecDepth 8000 in
/-- Witness for `C5_turn_trigger_amended`: a whitespace-only final
transcript on the live session `"call-1"`. -/
theorem C5_turn_trigger_amended_witness :
    (processTranscriptResult demoState "call-1" ⟨"  ", true, true⟩ 100
        (GenOutcome.ok (some "We open at nine.") 120) true [[1]]).turnInvoked
      = (true && !(jsTrim "  " = ""))
    ∧ ((true && !(jsTrim "  " = "")) = false →
        ∀ s', alookup (processTranscriptResult demoState "call-1" ⟨"  ", true, true⟩
            100 (GenOutcome.ok (some "We open at nine.") 120) true
            [[1]]).state.activeSessions "call-1" = some s' →
          s'.conversationHistory = demoInit.2.conversationHistory) :=
  C5_turn_trigger_amended demoState "call-1" ⟨"  ", true, true⟩ 100
    (GenOutcome.ok (some "We open at nine.") 120) true [[1]] demoInit.2 (by decide)

/-! ### C6 — fallback on turn-generation failure -/

/-- C6 counterexample: with a configured fallback utterance that is the
empty string, a user utterance processed while the generator fails appends
*no* assistant turn at all — `generateResponse` returns the empty fallback,
which is falsy, and `processUserInput` returns before the append.  The
history afterwards is `[system, user]`. -/
theorem C6_turn_generation_fallback_counterexample :
    demoAgentE.fallbackMessage = ""
    ∧ ((alookup (processUserInput demoStateE "call-1" "hello"
          GenOutcome.apiError true [[1]]).1.activeSessions "call-1").map
        (fun s => s.conversationHistory.map Turn.role))
      = some [Role.system, Role.user] := by
  decide

/-- C6 (amended): provided the configured fallback utterance is non-empty,
every user utterance processed while the turn generator fails (provider
error or missing key — both are caught inside `generateResponse`, so no
error escapes turn processing) appends a `user` turn and an `assistant`
turn whose content is exactly the fallback utterance, charges nothing, and
leaves the session registered — the session is never terminated by the
generation failure. -/
theorem C6_turn_generation_fallback_amended (st : OrchState)
    (callId userText : String) (gen : GenOutcome) (tts : Bool)
    (frames : List (List Nat)) (s : CallSession)
    (hs : alookup st.activeSessions callId = some s)
    (hfb : ¬ s.agent.fallbackMessage = "")
    (hgen : gen = GenOutcome.apiError ∨ gen = GenOutcome.keyMissing) :
    ∃ s', alookup (processUserInput st callId userText gen tts
          frames).1.activeSessions callId = some s'
      ∧ s'.conversationHistory
          = s.conversationHistory
              ++ [⟨Role.user, userText⟩, ⟨Role.assistant, s.agent.fallbackMessage⟩]
      ∧ s'.creditsUsed = s.creditsUsed := by
  rcases hgen with rfl | rfl <;> cases tts <;>
    simp [processUserInput, generateResponse, speakResponse, hs, hfb, alookup_aset]

set_option maxRecDepth 8000 in
/-- Witness for `C6_turn_generation_fallback_amended`: the live session
`"call-1"` (fallback `"Sorry, could you repeat that?"`) with an
always-erroring generator. -/
theorem C6_turn_generation_fallback_amended_witness :
    ∃ s', alookup (processUserInput demoState "call-1" "what are your hours"
          GenOutcome.apiError true [[1]]).1.activeSessions "call-1" = some s'
      ∧ s'.conversationHistory
          = demoInit.2.conversationHistory
              ++ [⟨Role.user, "what are your hours"⟩,
                  ⟨Role.assistant, demoInit.2.agent.fallbackMessage⟩]
      ∧ s'.creditsUsed = demoInit.2.creditsUsed :=
  C6_turn_generation_fallback_amended demoState "call-1" "what are your hours"
    GenOutcome.apiError true [[1]] demoInit.2 (by decide) (by decide) (Or.inl rfl)

/-! ### C10 — the system prompt and the generation window

Every operation of the orchestrator either creates a history
`[system-prompt]`, appends `user`/`assistant` turns to an existing history,
leaves histories untouched, or removes sessions — so `sessionWF` is an
invariant of `Reachable`, and a window of the last 10 entries of a history
longer than 10 contains no `system` turn. -/

theorem sessionWF_update {s s' : CallSession} (h : sessionWF s)
    (hh : s'.conversationHistory = s.conversationHistory)
    (ha : s'.agent = s.agent) : sessionWF s' := by
  obtain ⟨rest, hr, hall⟩ := h
  exact ⟨rest, by rw [hh, ha, hr], hall⟩

theorem sessionWF_append {s s' : CallSession} {ts : List Turn}
    (h : sessionWF s)
    (hh : s'.conversationHistory = s.conversationHistory ++ ts)
    (hts : ∀ t ∈ ts, t.role ≠ Role.system)
    (ha : s'.agent = s.agent) : sessionWF s' := by
  obtain ⟨rest, hr, hall⟩ := h
  refine ⟨rest ++ ts, ?_, ?_⟩
  · rw [hh, ha, hr]
    simp
  · intro t ht
    rcases List.mem_append.mp ht with ht | ht
    · exact hall t ht
    · exact hts t ht

theorem sessionsWF_aset {l : List (String × CallSession)} {k : String}
    {v : CallSession} (h : sessionsWF l) (hv : sessionWF v) :
    sessionsWF (aset l k v) := by
  intro p hp
  rcases mem_aset hp with hp | hp
  · rw [hp]
    exact hv
  · exact h p hp

theorem sessionsWF_aerase {l : List (String × CallSession)} {k : String}
    (h : sessionsWF l) : sessionsWF (aerase l k) :=
  fun p hp => h p (mem_aerase hp)

theorem generateResponse_session (s : CallSession) (gen : GenOutcome) :
    (generateResponse s gen).session.conversationHistory = s.conversationHistory
    ∧ (generateResponse s gen).session.agent = s.agent := by
  cases gen <;> exact ⟨rfl, rfl⟩

theorem wf_endCall (st : OrchState) (callId reason : String) (now : Nat)
    (h : stateWF st) : stateWF (endCall st callId reason now).state := by
  rcases h' : alookup st.activeSessions callId with _ | s
  · simpa [endCall, h'] using h
  · simp only [endCall, h']
    exact sessionsWF_aerase h

theorem wf_speakResponse (st : OrchState) (callId text : String)
    (tts : Bool) (frames : List (List Nat)) (h : stateWF st) :
    stateWF (speakResponse st callId text tts frames).1 := by
  rcases h' : alookup st.activeSessions callId with _ | s
  · simpa [speakResponse, h'] using h
  · have hws : sessionWF s := h _ (alookup_mem h')
    simp only [speakResponse, h']
    split
    · exact sessionsWF_aset h (sessionWF_update hws rfl rfl)
    · exact sessionsWF_aset h (sessionWF_update hws rfl rfl)

theorem wf_processUserInput (st : OrchState) (callId userText : String)
    (gen : GenOutcome) (tts : Bool) (frames : List (List Nat))
    (h : stateWF st) :
    stateWF (processUserInput st callId userText gen tts frames).1 := by
  rcases h' : alookup st.activeSessions callId with _ | s
  · simpa [processUserInput, h'] using h
  · have hws : sessionWF s := h _ (alookup_mem h')
    simp only [processUserInput, h']
    have hwg : sessionWF (generateResponse
        { s with conversationHistory :=
            s.conversationHistory ++ [⟨Role.user, userText⟩] } gen).session :=
      @sessionWF_append _ _ [⟨Role.user, userText⟩] hws
        (by rw [(generateResponse_session _ _).1]) (by simp)
        (by rw [(generateResponse_session _ _).2])
    split
    · exact sessionsWF_aset h hwg
    · refine wf_speakResponse _ _ _ _ _ ?_
      refine sessionsWF_aset h ?_
      refine sessionWF_append hwg rfl ?_ rfl
      simp

theorem wf_sendGreeting (st : OrchState) (callId : String) (tts : Bool)
    (frames : List (List Nat)) (h : stateWF st) :
    stateWF (sendGreeting st callId tts frames).1 := by
  rcases h' : alookup st.activeSessions callId with _ | s
  · simpa [sendGreeting, h'] using h
  · have hws : sessionWF s := h _ (alookup_mem h')
    simp only [sendGreeting, h']
    refine wf_speakResponse _ _ _ _ _ ?_
    exact sessionsWF_aset h (sessionWF_append hws rfl (by simp) rfl)

theorem wf_updateCallCredits (st : OrchState) (sess : CallSession) (now : Nat)
    (h : stateWF st) (hsess : sessionWF sess) :
    stateWF (updateCallCredits st sess now).1 := by
  by_cases hc : sess.creditsUsed < ceilDiv (now - sess.startTime) 60000 * CREDITS_PER_MINUTE
  · simp only [updateCallCredits, if_pos hc]
    split
    · refine wf_endCall _ _ _ _ ?_
      exact sessionsWF_aset h (sessionWF_update hsess rfl rfl)
    · exact sessionsWF_aset h (sessionWF_update hsess rfl rfl)
  · simp only [updateCallCredits, if_neg hc]
    split
    · refine wf_endCall _ _ _ _ ?_
      exact sessionsWF_aset h (sessionWF_update hsess rfl rfl)
    · exact sessionsWF_aset h (sessionWF_update hsess rfl rfl)

theorem wf_handleAudioInput (st : OrchState) (callId : String)
    (audioData : List Nat) (now : Nat) (h : stateWF st) :
    stateWF (handleAudioInput st callId audioData now).1 := by
  rcases h' : alookup st.activeSessions callId with _ | s
  · simpa [handleAudioInput, h'] using h
  · rcases h'' : alookup st.sttClients callId with _ | stt
    · simpa [handleAudioInput, h', h''] using h
    · have hws : sessionWF s := h _ (alookup_mem h')
      rcases hconn : stt.isConnected with _ | _
      · simpa [handleAudioInput, h', h'', hconn] using h
      · simp only [handleAudioInput, h', h'', hconn]
        by_cases hbarge : (s.isSpeaking && detectVoiceActivity audioData) = true
        all_goals simp [hbarge]
        all_goals rcases hss : s.silenceStart with _ | t
        all_goals simp only [hss]
        all_goals try split
        all_goals first
          | (refine wf_updateCallCredits _ _ _ ?_ ?_ <;>
              first
                | exact h
                | exact sessionsWF_aset h (sessionWF_update hws rfl rfl)
                | exact sessionWF_update hws rfl rfl)

theorem wf_onSttEvent (st : OrchState) (callId : String) (ev : SttEvent)
    (now : Nat) (gen : GenOutcome) (tts : Bool) (frames : List (List Nat))
    (h : stateWF st) :
    stateWF (onSttEvent st callId ev now gen tts frames).state := by
  cases ev with
  | transcript r =>
    by_cases htext : r.text = ""
    · simpa [onSttEvent, htext] using h
    · rcases h' : alookup st.activeSessions callId with _ | s
      · simpa [onSttEvent, htext, h'] using h
      · simp only [onSttEvent, if_neg htext, h']
        exact sessionsWF_aset h (sessionWF_update (h _ (alookup_mem h')) rfl rfl)
  | finalTranscript r =>
    by_cases htrim : jsTrim r.text = ""
    · simpa [onSttEvent, htrim] using h
    · rcases h' : alookup st.activeSessions callId with _ | s
      · simpa [onSttEvent, htrim, h'] using h
      · simp only [onSttEvent, if_neg htrim, h']
        refine wf_processUserInput _ _ _ _ _ _ ?_
        exact sessionsWF_aset h (sessionWF_update (h _ (alookup_mem h')) rfl rfl)
  | interimTranscript r => simpa [onSttEvent] using h
  | speechEnd r =>
    rcases h' : alookup st.activeSessions callId with _ | s
    · simpa [onSttEvent, h'] using h
    · simp only [onSttEvent, h']
      exact sessionsWF_aset h (sessionWF_update (h _ (alookup_mem h')) rfl rfl)

theorem wf_foldSttEvents (callId : String) (now : Nat) (gen : GenOutcome)
    (tts : Bool) (frames : List (List Nat)) (evs : List SttEvent) :
    ∀ acc : StepResult, stateWF acc.state →
      stateWF ((evs.foldl (fun acc ev =>
          let step := onSttEvent acc.state callId ev now gen tts frames
          ⟨step.state, acc.emits ++ step.emits, acc.turnInvoked || step.turnInvoked⟩)
        acc).state) := by
  induction evs with
  | nil => intro acc h; exact h
  | cons e es ih =>
    intro acc h
    exact ih _ (wf_onSttEvent _ callId e now gen tts frames h)

theorem wf_processTranscriptResult (st : OrchState) (callId : String)
    (r : TranscriptResult) (now : Nat) (gen : GenOutcome) (tts : Bool)
    (frames : List (List Nat)) (h : stateWF st) :
    stateWF (processTranscriptResult st callId r now gen tts frames).state :=
  wf_foldSttEvents callId now gen tts frames (handleMessageEvents r) ⟨st, [], false⟩ h

theorem wf_orchStep (st : OrchState) (ev : OrchEvent) (h : stateWF st) :
    stateWF (orchStep st ev).1 := by
  cases ev with
  | init callId tenantId agentId agent campaignId tel now sttCfg =>
    exact sessionsWF_aset h ⟨[], rfl, by simp⟩
  | audioInput callId audioData now => exact wf_handleAudioInput _ _ _ _ h
  | sttResults callId r now gen ttsCfg frames =>
    exact wf_processTranscriptResult _ _ _ _ _ _ _ h
  | greeting callId ttsCfg frames => exact wf_sendGreeting _ _ _ _ h
  | endRequest callId reason now => exact wf_endCall _ _ _ _ h

theorem reachable_stateWF (st : OrchState) (h : Reachable st) : stateWF st := by
  induction h with
  | empty =>
    intro p hp
    simp [emptyOrch] at hp
  | step st' ev _ ih => exact wf_orchStep st' ev ih

/-- C10: in every reachable orchestrator state, every live session's
conversation history starts with the system-prompt turn built from the
session's agent, and once the history exceeds 10 entries, the
`slice(-10)` context sent to the turn generator contains no `system`
turn — the system prompt has been dropped from the generation request. -/
theorem C10_system_prompt_window (st : OrchState) (callId : String)
    (s : CallSession) (hreach : Reachable st)
    (hs : alookup st.activeSessions callId = some s) :
    (∃ rest, s.conversationHistory
        = ⟨Role.system, buildSystemPrompt s.agent⟩ :: rest)
    ∧ (10 < s.conversationHistory.length →
        ∀ t ∈ recentHistory s, t.role ≠ Role.system) := by
  obtain ⟨rest, hr, hall⟩ :=
    reachable_stateWF st hreach (callId, s) (alookup_mem hs)
  refine ⟨⟨rest, hr⟩, ?_⟩
  intro hlen t ht
  simp only [recentHistory] at ht
  rw [hr] at ht hlen
  simp only [List.length_cons] at ht hlen
  have hsplit : rest.length + 1 - 10 = (rest.length - 10) + 1 := by omega
  rw [hsplit, List.drop_succ_cons] at ht
  exact hall t (List.drop_subset _ _ ht)

set_option maxRecDepth 8000 in
/-- Witness for `C10_system_prompt_window`: the freshly initialized session
`"call-1"` in the reachable state `demoState`. -/
theorem C10_system_prompt_window_witness :
    (∃ rest, demoInit.2.conversationHistory
        = ⟨Role.system, buildSystemPrompt demoInit.2.agent⟩ :: rest)
    ∧ (10 < demoInit.2.conversationHistory.length →
        ∀ t ∈ recentHistory demoInit.2, t.role ≠ Role.system) :=
  C10_system_prompt_window demoState "call-1" demoInit.2
    (Reachable.step emptyOrch
      (OrchEvent.init "call-1" "tenant-A" "agent-X" demoAgent none none 0 true)
      Reachable.empty)
    (by decide)

end AICaller
